import Mathlib

/-!
Verification of the expense-splitting and settlement engine of the
roomsync backend.  The definitions below are a shallow embedding of
src/services/expenseService.js, the SplitService (src/unnamed/part_009),
the ExpenseController (src/controllers/expenseController.js) and the
SplitController (src/unnamed/part_002).  Monetary amounts (MySQL DECIMAL
columns operated on with full-precision division in the source) are
modelled as rationals; timestamps as integers; SQL NULL as Option.
Service-level failures are Except values carrying the exact Error
message strings built by the source (each service wraps inner errors as
"Failed to <op>: <inner message>").
-/

namespace RoomSync

/-- Split status enum from models/Split.js: ENUM(unpaid, pending, paid). -/
inductive Status where
  | unpaid
  | pending
  | paid
deriving DecidableEq, Repr

/-- One row of the splits table (models/Split.js plus the assigned_by
column added by the migration in part_008 / model in part_017).
assigned_by is nullable; paid_date is nullable. -/
structure Split where
  id : Nat
  status : Status
  split_amount : ℚ
  assigned_to : Nat
  assigned_by : Option Nat
  paid_date : Option ℤ
  expense_id : Nat
  created_at : ℤ
deriving DecidableEq, Repr

/-- One row of the expenses table (models/Expense.js). -/
structure Expense where
  id : Nat
  category : String
  title : String
  description : Option String
  receipt_total : ℚ
  group_id : Nat
  created_by : Nat
deriving DecidableEq, Repr

/-- One row of the tenants table, with the columns the split code reads. -/
structure Tenant where
  id : Nat
  user_id : Nat
deriving DecidableEq, Repr

/-- The relational store (Ledger Store): expenses, splits, tenants and
the auto-increment counters of the two tables. -/
structure Store where
  expenses : List Expense
  splits : List Split
  tenants : List Tenant
  nextExpenseId : Nat
  nextSplitId : Nat
deriving Repr

/-- Expense.findByPk. -/
def findExpense (st : Store) (eid : Nat) : Option Expense :=
  st.expenses.find? (fun e => e.id == eid)

/-- Split.findByPk. -/
def findSplit (st : Store) (sid : Nat) : Option Split :=
  st.splits.find? (fun s => s.id == sid)

/-- Tenant.findOne({where: {user_id: userId}}). -/
def findTenantByUser (st : Store) (userId : Nat) : Option Tenant :=
  st.tenants.find? (fun t => t.user_id == userId)

/-- The splits belonging to one expense (the include of the splits
association in ExpenseService.getExpenseById). -/
def splitsOfExpense (st : Store) (eid : Nat) : List Split :=
  st.splits.filter (fun s => s.expense_id == eid)

/-- Return shape of ExpenseService.getExpenseById: the expense together
with its included splits. -/
structure ExpenseView where
  expense : Expense
  splits : List Split
deriving Repr

/-- Error message produced by ExpenseService.getExpenseById when the id
does not resolve: the inner Error("Expense not found") is caught by the
same method and re-thrown wrapped. -/
def expenseNotFoundMsg : String := "Failed to get expense: Expense not found"

/-- ExpenseService.getExpenseById: findByPk with includes; throws
(wrapped) when the expense does not exist. -/
def getExpenseById (st : Store) (eid : Nat) : Except String ExpenseView :=
  match findExpense st eid with
  | some e => .ok ⟨e, splitsOfExpense st eid⟩
  | none => .error expenseNotFoundMsg

/-- Payload of ExpenseService.createExpense after the controller builds
it: expense fields plus the selected_roommates list. -/
structure ExpenseData where
  category : String
  title : String
  description : Option String
  receipt_total : ℚ
  group_id : Nat
  created_by : Nat
  selected_roommates : List Nat
deriving Repr

/-- Candidate split rows built inside ExpenseService.createExpense by
mapping over selected_roommates: every row gets the same precomputed
share, assigned_by = creator, and the creator row is pre-marked paid
with paid_date = now while all others are unpaid with null paid_date.
Row ids are assigned sequentially by the store. -/
def mkSplits (eid : Nat) (share : ℚ) (creator : Nat) (now : ℤ) :
    Nat → List Nat → List Split
  | _, [] => []
  | sid, tid :: rest =>
      { id := sid
        status := if tid = creator then Status.paid else Status.unpaid
        split_amount := share
        assigned_to := tid
        assigned_by := some creator
        paid_date := if tid = creator then some now else none
        expense_id := eid
        created_at := now } :: mkSplits eid share creator now (sid + 1) rest

/-- Fault injection for the two inserts inside the createExpense
transaction (used to state the atomicity contract). -/
inductive Fault where
  | none
  | expenseInsertFails
  | splitInsertFails
deriving DecidableEq, Repr

/-- Error wrapper of ExpenseService.createExpense. -/
def createExpenseFailMsg (inner : String) : String :=
  "Failed to create expense: " ++ inner

/-- Rounding applied by the DECIMAL(10,2) columns (receipt_total and
split_amount) when a row is persisted: MySQL rounds the value to two
fractional digits, half away from zero.  For the nonnegative amounts
reachable here (both columns validate min 0.01) this coincides with
round, which rounds ties upward.  The JS double arithmetic that
produces the value before insertion is idealized as exact rational
arithmetic; the cents rounding below is what is observable in the
stored rows. -/
def round2 (q : ℚ) : ℚ := ((round (q * 100) : ℤ) : ℚ) / 100

/-- ExpenseService.createExpense: opens a transaction, inserts the
expense row (receipt_total stored in DECIMAL(10,2), hence rounded to
cents), computes share = receipt_total / selected_roommates.length,
bulk-inserts one split per selected roommate (split_amount stored in
DECIMAL(10,2), hence the share rounded to cents, with no remainder
redistribution), commits, and re-reads the expense through
getExpenseById.  On any failure the transaction rolls back: the
function returns the original (pre-call) store together with the
wrapped error. -/
def createExpense (st : Store) (data : ExpenseData) (now : ℤ) (fault : Fault) :
    Store × Except String ExpenseView :=
  if fault = Fault.expenseInsertFails then
    (st, .error (createExpenseFailMsg "insert into expenses failed"))
  else
    let expense : Expense :=
      { id := st.nextExpenseId
        category := data.category
        title := data.title
        description := data.description
        receipt_total := round2 data.receipt_total
        group_id := data.group_id
        created_by := data.created_by }
    let share : ℚ :=
      round2 (expense.receipt_total / (data.selected_roommates.length : ℚ))
    let newSplits := mkSplits expense.id share expense.created_by now st.nextSplitId
      data.selected_roommates
    if fault = Fault.splitInsertFails then
      (st, .error (createExpenseFailMsg "bulk insert into splits failed"))
    else
      let st' : Store :=
        { st with
          expenses := st.expenses ++ [expense]
          splits := st.splits ++ newSplits
          nextExpenseId := st.nextExpenseId + 1
          nextSplitId := st.nextSplitId + data.selected_roommates.length }
      match getExpenseById st' expense.id with
      | .ok v => (st', .ok v)
      | .error m => (st', .error (createExpenseFailMsg m))

/-- SQL SUM aggregate: NULL over the empty row set, else the sum. -/
def sumAgg (l : List ℚ) : Option ℚ :=
  if l.isEmpty then none else some l.sum

/-- The JS coercion parseFloat(total) || 0 applied to a SUM result:
NULL (parseFloat gives NaN) and 0 both become 0. -/
def jsNumOrZero (o : Option ℚ) : ℚ := o.getD 0

/-- ExpenseService.getTotalExpensesByGroup: SUM(receipt_total) over the
expenses of one group, coerced to 0 when the group has no expenses. -/
def getTotalExpensesByGroup (st : Store) (groupId : Nat) : Except String ℚ :=
  .ok (jsNumOrZero (sumAgg ((st.expenses.filter
    (fun e => e.group_id == groupId)).map (·.receipt_total))))

/-- Return shape of the SplitService reads: the split row together with
the association objects the query loaded.  A query that does not
include an association leaves it none (undefined on the JS instance). -/
structure SplitInstance where
  row : Split
  expense : Option Expense
  assignedTenant : Option Tenant
deriving Repr

/-- SplitService.getSplitById: findByPk including the expense and the
assignedTenant associations; the inner Error("Split not found") is
re-thrown wrapped by the same method. -/
def getSplitByIdSvc (st : Store) (sid : Nat) : Except String SplitInstance :=
  match findSplit st sid with
  | some s => .ok ⟨s, findExpense st s.expense_id,
      st.tenants.find? (fun t => t.id == s.assigned_to)⟩
  | none => .error ("Failed to get split: " ++ "Split not found")

/-- SplitService.updateSplitStatus: findByPk without includes, then
update({status, ...}).  paid_date enters the update object only when
the new status is paid AND a paidDate argument was passed (truthy); a
non-paid status clears it to null; a paid status without a provided
date leaves the stored paid_date untouched.  The returned instance has
no associations loaded. -/
def updateSplitStatus (st : Store) (sid : Nat) (status : Status)
    (paidDate : Option ℤ) : Store × Except String SplitInstance :=
  match findSplit st sid with
  | none => (st, .error ("Failed to update split status: " ++ "Split not found"))
  | some s =>
      let s' : Split :=
        { s with
          status := status
          paid_date :=
            if status = Status.paid then
              (if paidDate.isSome then paidDate else s.paid_date)
            else none }
      ({ st with splits := st.splits.map (fun t => if t.id == sid then s' else t) },
        .ok ⟨s', none, none⟩)

/-- SplitService.getTotalSplitsByStatus: SUM(split_amount) over the
splits of one expense with one status, coerced to 0 when none match. -/
def getTotalSplitsByStatus (st : Store) (eid : Nat) (status : Status) :
    Except String ℚ :=
  .ok (jsNumOrZero (sumAgg ((st.splits.filter
    (fun s => s.expense_id == eid && s.status == status)).map (·.split_amount))))

/-- Where-clause of getToPaySplits: assigned_to = tenant and status IN
(unpaid, pending). -/
def toPayPred (tid : Nat) (s : Split) : Bool :=
  s.assigned_to == tid && (s.status == Status.unpaid || s.status == Status.pending)

/-- Where-clause of getToReceiveSplits: assigned_by = tenant and status
IN (unpaid, pending); a NULL assigned_by never matches. -/
def toReceivePred (tid : Nat) (s : Split) : Bool :=
  s.assigned_by == some tid && (s.status == Status.unpaid || s.status == Status.pending)

/-- Where-clause of getSplitHistory: status = paid and (assigned_to =
tenant OR assigned_by = tenant). -/
def historyPred (tid : Nat) (s : Split) : Bool :=
  s.status == Status.paid && (s.assigned_to == tid || s.assigned_by == some tid)

/-- Sort key for ORDER BY paid_date DESC under MySQL: NULL sorts after
every date in descending order, so NULL maps to bottom. -/
def paidDateKey (s : Split) : WithBot ℤ :=
  match s.paid_date with
  | some d => (d : WithBot ℤ)
  | none => ⊥

/-- Descending paid_date order between two splits. -/
def paidDateDesc (a b : Split) : Prop := paidDateKey b ≤ paidDateKey a

instance : DecidableRel paidDateDesc := fun a b =>
  inferInstanceAs (Decidable (paidDateKey b ≤ paidDateKey a))

instance : IsTotal Split paidDateDesc :=
  ⟨fun a b => le_total (paidDateKey b) (paidDateKey a)⟩

instance : IsTrans Split paidDateDesc :=
  ⟨fun _ _ _ h1 h2 => le_trans h2 h1⟩

/-- Descending created_at order between two splits (ORDER BY created_at
DESC of the to-pay and to-receive queries). -/
def createdDesc (a b : Split) : Prop := b.created_at ≤ a.created_at

instance : DecidableRel createdDesc := fun a b =>
  inferInstanceAs (Decidable (b.created_at ≤ a.created_at))

instance : IsTotal Split createdDesc :=
  ⟨fun a b => le_total b.created_at a.created_at⟩

instance : IsTrans Split createdDesc :=
  ⟨fun _ _ _ h1 h2 => le_trans h2 h1⟩

/-- SplitService.getToPaySplits: resolves the tenant record of the
calling user, then lists the unpaid/pending splits assigned to that
tenant, newest first. -/
def getToPaySplits (st : Store) (userId : Nat) : Except String (List Split) :=
  match findTenantByUser st userId with
  | none => .error ("Failed to get to pay splits: " ++ "Tenant record not found")
  | some t => .ok (List.insertionSort createdDesc (st.splits.filter (toPayPred t.id)))

/-- SplitService.getToReceiveSplits: resolves the tenant record, then
lists the unpaid/pending splits the tenant is owed, newest first. -/
def getToReceiveSplits (st : Store) (userId : Nat) : Except String (List Split) :=
  match findTenantByUser st userId with
  | none => .error ("Failed to get to receive splits: " ++ "Tenant record not found")
  | some t => .ok (List.insertionSort createdDesc (st.splits.filter (toReceivePred t.id)))

/-- SplitService.getSplitHistory: resolves the tenant record, then
lists the paid splits in which the tenant is payer or payee, ordered by
paid_date descending. -/
def getSplitHistory (st : Store) (userId : Nat) : Except String (List Split) :=
  match findTenantByUser st userId with
  | none => .error ("Failed to get split history: " ++ "Tenant record not found")
  | some t => .ok (List.insertionSort paidDateDesc (st.splits.filter (historyPred t.id)))

/-- One {total, count} aggregate pair of getSplitSummary. -/
structure AggPair where
  total : ℚ
  count : Nat
deriving DecidableEq, Repr

/-- Return shape of SplitService.getSplitSummary. -/
structure SplitSummary where
  toPay : AggPair
  toReceive : AggPair
  history : AggPair
deriving DecidableEq, Repr

/-- One SUM/COUNT aggregate query over the splits matching p, with the
parseFloat(total || 0) and parseInt(count || 0) coercions applied. -/
def aggFor (p : Split → Bool) (st : Store) : AggPair :=
  let rows := st.splits.filter p
  ⟨jsNumOrZero (sumAgg (rows.map (·.split_amount))), rows.length⟩

/-- SplitService.getSplitSummary: resolves the tenant record, then runs
three independent aggregate queries with the same where-clauses as the
three list operations. -/
def getSplitSummary (st : Store) (userId : Nat) : Except String SplitSummary :=
  match findTenantByUser st userId with
  | none => .error ("Failed to get split summary: " ++ "Tenant record not found")
  | some t =>
      .ok ⟨aggFor (toPayPred t.id) st, aggFor (toReceivePred t.id) st,
        aggFor (historyPred t.id) st⟩

/-- HTTP response sent by a controller: status code, success flag and
message of the JSON body. -/
structure HttpResponse where
  status : Nat
  success : Bool
  message : String
deriving DecidableEq, Repr

/-- Request seen by ExpenseController.createExpense after auth: the
body fields and the group/tenant identity from the JWT user. -/
structure CreateExpenseRequest where
  category : String
  title : String
  description : Option String
  receipt_total : ℚ
  group_id : Option Nat
  selected_roommates : Option (List Nat)
  user_group_id : Option Nat
  user_tenant_id : Nat
deriving Repr

/-- ExpenseController.createExpense: group membership check, group
match check, the two roommate validations, then the service call. The
store is returned unchanged on every validation failure (the service is
never invoked) and on a service failure (transaction rollback). -/
def httpCreateExpense (st : Store) (req : CreateExpenseRequest) (now : ℤ)
    (fault : Fault) : Store × HttpResponse :=
  match req.user_group_id with
  | none => (st, ⟨400, false, "You must be in a group to create expenses"⟩)
  | some ug =>
    if (match req.group_id with | some g => g != ug | none => false : Bool) then
      (st, ⟨400, false, "You can only create expenses for your own group"⟩)
    else
      match req.selected_roommates with
      | none =>
          (st, ⟨400, false,
            "You must select at least one roommate to split the expense with"⟩)
      | some rms =>
        if rms.isEmpty then
          (st, ⟨400, false,
            "You must select at least one roommate to split the expense with"⟩)
        else if req.user_tenant_id ∉ rms then
          (st, ⟨400, false, "You must include yourself in the selected roommates"⟩)
        else
          let data : ExpenseData :=
            { category := req.category
              title := req.title
              description := req.description
              receipt_total := req.receipt_total
              group_id := req.group_id.getD ug
              created_by := req.user_tenant_id
              selected_roommates := rms }
          match createExpense st data now fault with
          | (st', .ok _) => (st', ⟨201, true, "Expense created successfully"⟩)
          | (st', .error m) => (st', ⟨500, false, m⟩)

/-- SplitController.getSplitById: maps the service outcome to HTTP,
with a 404 branch guarded by the strict string comparison
error.message === "Split not found". -/
def httpGetSplitById (st : Store) (sid : Nat) : HttpResponse :=
  match getSplitByIdSvc st sid with
  | .ok _ => ⟨200, true, ""⟩
  | .error m =>
      if m = "Split not found" then ⟨404, false, "Split not found"⟩
      else ⟨500, false, m⟩

/-- Notification row created by
NotificationService.createSplitPaidNotification. -/
structure PaidNotice where
  recipient_id : Nat
  sender_id : Nat
  related_entity_id : Nat
deriving DecidableEq, Repr

/-- The notification step of SplitController.updateSplitStatus: it
evaluates split.expense.creator and split.assignedTenant on the
instance returned by the service.  When the expense association was not
loaded, reading .creator on undefined throws a TypeError (caught by the
surrounding try of the controller).  The message formatting from the
tenantUser name is elided: no path reachable from the controller gets
that far. -/
def splitPaidNotifyStep (inst : SplitInstance) : Except String PaidNotice :=
  match inst.expense with
  | none => .error "TypeError: Cannot read properties of undefined (reading creator)"
  | some exp =>
      match inst.assignedTenant with
      | none => .error "TypeError: Cannot read properties of undefined (reading id)"
      | some payer => .ok ⟨exp.created_by, payer.id, inst.row.id⟩

/-- SplitController.updateSplitStatus: runs the service update; when
the requested status is paid it attempts the settlement notification
inside its own try/catch (failures logged, never propagated), then
responds 200 with the updated split.  Service errors go through the
same dead-string 404 check as the other handlers. -/
def httpUpdateSplitStatus (st : Store) (sid : Nat) (status : Status)
    (paidDate : Option ℤ) : Store × HttpResponse × List PaidNotice :=
  match updateSplitStatus st sid status paidDate with
  | (st', .ok inst) =>
      let notices :=
        if status = Status.paid then
          match splitPaidNotifyStep inst with
          | .ok n => [n]
          | .error _ => []
        else []
      (st', ⟨200, true, "Split status updated successfully"⟩, notices)
  | (st', .error m) =>
      if m = "Split not found" then (st', ⟨404, false, "Split not found"⟩, [])
      else (st', ⟨500, false, m⟩, [])

/-- Auto-increment discipline of the store: no existing row already
carries the id the next insert will be given. -/
def FreshIds (st : Store) : Prop :=
  (∀ e ∈ st.expenses, e.id ≠ st.nextExpenseId) ∧
    (∀ s ∈ st.splits, s.expense_id ≠ st.nextExpenseId)

/-- The expense row inserted by a createExpense call on store st; its
receipt_total carries the DECIMAL(10,2) cents rounding. -/
def newExpense (st : Store) (data : ExpenseData) : Expense :=
  { id := st.nextExpenseId
    category := data.category
    title := data.title
    description := data.description
    receipt_total := round2 data.receipt_total
    group_id := data.group_id
    created_by := data.created_by }

/-- The split rows inserted by a createExpense call on store st; each
split_amount is the per-person share rounded to cents by the
DECIMAL(10,2) column. -/
def newSplitRows (st : Store) (data : ExpenseData) (now : ℤ) : List Split :=
  mkSplits st.nextExpenseId
    (round2 (round2 data.receipt_total / (data.selected_roommates.length : ℚ)))
    data.created_by now st.nextSplitId data.selected_roommates

/-- The store after a successful createExpense call. -/
def stAfterCreate (st : Store) (data : ExpenseData) (now : ℤ) : Store :=
  { st with
    expenses := st.expenses ++ [newExpense st data]
    splits := st.splits ++ newSplitRows st data now
    nextExpenseId := st.nextExpenseId + 1
    nextSplitId := st.nextSplitId + data.selected_roommates.length }

/-- Empty ledger with three tenant records, used by concrete runs. -/
def baseStore : Store :=
  { expenses := []
    splits := []
    tenants := [⟨1, 10⟩, ⟨2, 20⟩, ⟨3, 30⟩]
    nextExpenseId := 1
    nextSplitId := 1 }

/-- A 90-unit expense split among tenants 1 (creator), 2 and 3. -/
def sampleData : ExpenseData :=
  { category := "food"
    title := "groceries"
    description := none
    receipt_total := 90
    group_id := 5
    created_by := 1
    selected_roommates := [1, 2, 3] }

/-- A 100-unit expense split among tenants 1 (creator), 2 and 3: the
per-person share 33.333... is not representable in cents. -/
def data100 : ExpenseData :=
  { sampleData with receipt_total := 100 }

/-- Request whose creator (tenant 1) is absent from the selected
roommates. -/
def creatorMissingReq : CreateExpenseRequest :=
  { category := "food"
    title := "groceries"
    description := none
    receipt_total := 90
    group_id := none
    selected_roommates := some [2]
    user_group_id := some 5
    user_tenant_id := 1 }

/-- Request with an empty selected-roommates list. -/
def emptyRoommatesReq : CreateExpenseRequest :=
  { creatorMissingReq with selected_roommates := some [] }

/-- Store holding one unpaid split with null paid_date (split 1 of
expense 1, tenant 2 owes tenant 1). -/
def oneSplitStore : Store :=
  { expenses := [⟨1, "food", "groceries", none, 90, 5, 1⟩]
    splits := [⟨1, Status.unpaid, 30, 2, some 1, none, 1, 0⟩]
    tenants := [⟨1, 10⟩, ⟨2, 20⟩, ⟨3, 30⟩]
    nextExpenseId := 2
    nextSplitId := 2 }

/-- Store for the history scenarios: tenant 1 (user 10) is payer on
paid split 1, payee on paid split 2, and also has an unpaid split 3 to
pay and an unpaid split 4 to receive. -/
def historyStore : Store :=
  { expenses := [⟨1, "food", "groceries", none, 90, 5, 2⟩,
                 ⟨2, "rent", "march", none, 60, 5, 1⟩]
    splits := [⟨1, Status.paid, 30, 1, some 2, some 50, 1, 0⟩,
               ⟨2, Status.paid, 20, 3, some 1, some 70, 2, 1⟩,
               ⟨3, Status.unpaid, 30, 1, some 2, none, 1, 2⟩,
               ⟨4, Status.pending, 20, 2, some 1, none, 2, 3⟩]
    tenants := [⟨1, 10⟩, ⟨2, 20⟩, ⟨3, 30⟩]
    nextExpenseId := 3
    nextSplitId := 5 }

/-- Shape of every candidate split row generated by mkSplits. -/
theorem mkSplits_mem {eid : Nat} {share : ℚ} {c : Nat} {now : ℤ} :
    ∀ (l : List Nat) (sid : Nat) (s : Split), s ∈ mkSplits eid share c now sid l →
      s.expense_id = eid ∧ s.split_amount = share ∧ s.assigned_by = some c ∧
      s.status = (if s.assigned_to = c then Status.paid else Status.unpaid) ∧
      s.paid_date = (if s.assigned_to = c then some now else none) := by
  intro l
  induction l with
  | nil => intro sid s h; simp [mkSplits] at h
  | cons tid rest ih =>
      intro sid s h
      rw [mkSplits] at h
      rcases List.mem_cons.mp h with h1 | h2
      · subst h1
        exact ⟨rfl, rfl, rfl, rfl, rfl⟩
      · exact ih (sid + 1) s h2

/-- The generated amounts are one copy of the share per roommate. -/
theorem mkSplits_map_amount {eid : Nat} {share : ℚ} {c : Nat} {now : ℤ} :
    ∀ (l : List Nat) (sid : Nat),
      (mkSplits eid share c now sid l).map (·.split_amount) =
        List.replicate l.length share := by
  intro l
  induction l with
  | nil => intro sid; rfl
  | cons tid rest ih => intro sid; simp [mkSplits, List.replicate_succ, ih]

/-- Characterization of a fault-free createExpense run: it returns the
extended store and the view holding the new expense and exactly the
generated split rows. -/
theorem createExpense_none_eq (st : Store) (data : ExpenseData) (now : ℤ)
    (hfresh : FreshIds st) :
    createExpense st data now Fault.none =
      (stAfterCreate st data now, .ok ⟨newExpense st data, newSplitRows st data now⟩) := by
  have hfind : (st.expenses ++ [newExpense st data]).find?
      (fun e => e.id == st.nextExpenseId) = some (newExpense st data) := by
    rw [List.find?_append]
    have h1 : st.expenses.find? (fun e => e.id == st.nextExpenseId) = none :=
      List.find?_eq_none.mpr (fun e he => by simp [hfresh.1 e he])
    rw [h1]
    simp [List.find?, newExpense]
  have hfilter : (st.splits ++ newSplitRows st data now).filter
      (fun s => s.expense_id == st.nextExpenseId) = newSplitRows st data now := by
    rw [List.filter_append]
    have h1 : st.splits.filter (fun s => s.expense_id == st.nextExpenseId) = [] :=
      List.filter_eq_nil_iff.mpr (fun s hs => by simp [hfresh.2 s hs])
    have h2 : (newSplitRows st data now).filter
        (fun s => s.expense_id == st.nextExpenseId) = newSplitRows st data now :=
      List.filter_eq_self.mpr (fun s hs => by
        have h3 := (mkSplits_mem _ _ _ hs).1
        simp [h3])
    rw [h1, h2]
    rfl
  simp only [createExpense, getExpenseById, findExpense, splitsOfExpense]
  simp only [reduceCtorEq, if_false, ite_false]
  simp only [newExpense, newSplitRows] at hfind hfilter
  rw [hfind]
  simp only [hfilter, stAfterCreate, newExpense, newSplitRows]


/-- Rounding a value to cents moves it by at most half a cent. -/
theorem round2_abs_sub (x : ℚ) : |round2 x - x| ≤ 1 / 200 := by
  unfold round2
  have h : |((round (x * 100) : ℤ) : ℚ) - x * 100| ≤ 1 / 2 := by
    rw [abs_sub_comm]
    exact abs_sub_round (x * 100)
  have heq : ((round (x * 100) : ℤ) : ℚ) / 100 - x =
      (((round (x * 100) : ℤ) : ℚ) - x * 100) / 100 := by ring
  rw [heq, abs_div, show |(100 : ℚ)| = 100 from abs_of_pos (by norm_num)]
  linarith

/-- C1 (amended): every createExpense call with a non-empty participant
list of length n stores the same share on every generated split, namely
the full-precision quotient receipt_total / n rounded to cents by the
DECIMAL(10,2) column, and the stored amounts sum to n times that
rounded share - within n/200 of the stored receipt_total, but not equal
to it whenever the share is not an exact multiple of a cent (no
remainder is redistributed). -/
theorem createExpense_equal_split_and_sum (st : Store) (data : ExpenseData) (now : ℤ)
    (hfresh : FreshIds st) (hne : data.selected_roommates ≠ []) :
    ∃ st' v, createExpense st data now Fault.none = (st', .ok v) ∧
      (∀ s ∈ v.splits,
        s.split_amount =
          round2 (v.expense.receipt_total / (data.selected_roommates.length : ℚ))) ∧
      (v.splits.map (·.split_amount)).sum =
        (data.selected_roommates.length : ℚ) *
          round2 (v.expense.receipt_total / (data.selected_roommates.length : ℚ)) ∧
      |(v.splits.map (·.split_amount)).sum - v.expense.receipt_total| ≤
        (data.selected_roommates.length : ℚ) / 200 := by
  have hsum : ((newSplitRows st data now).map (·.split_amount)).sum =
      (data.selected_roommates.length : ℚ) *
        round2 (round2 data.receipt_total / (data.selected_roommates.length : ℚ)) := by
    unfold newSplitRows
    rw [mkSplits_map_amount, List.sum_replicate, nsmul_eq_mul]
  refine ⟨_, _, createExpense_none_eq st data now hfresh, ?_, ?_, ?_⟩
  · intro s hs
    simp only [newSplitRows] at hs
    exact (mkSplits_mem _ _ _ hs).2.1
  · exact hsum
  · show |((newSplitRows st data now).map (·.split_amount)).sum -
        round2 data.receipt_total| ≤ (data.selected_roommates.length : ℚ) / 200
    rw [hsum]
    have hlen : (data.selected_roommates.length : ℚ) ≠ 0 :=
      Nat.cast_ne_zero.mpr (fun h => hne (List.length_eq_zero.mp h))
    have hT : (data.selected_roommates.length : ℚ) *
        (round2 data.receipt_total / (data.selected_roommates.length : ℚ)) =
        round2 data.receipt_total := by
      rw [mul_comm, div_mul_cancel₀ _ hlen]
    calc |(data.selected_roommates.length : ℚ) *
            round2 (round2 data.receipt_total /
              (data.selected_roommates.length : ℚ)) - round2 data.receipt_total|
        = |(data.selected_roommates.length : ℚ)| *
            |round2 (round2 data.receipt_total /
              (data.selected_roommates.length : ℚ)) -
              round2 data.receipt_total / (data.selected_roommates.length : ℚ)| := by
          rw [← abs_mul, mul_sub, hT]
      _ ≤ (data.selected_roommates.length : ℚ) * (1 / 200) := by
          rw [abs_of_nonneg (Nat.cast_nonneg _)]
          exact mul_le_mul_of_nonneg_left (round2_abs_sub _) (Nat.cast_nonneg _)
      _ = (data.selected_roommates.length : ℚ) / 200 := by ring

/-- C1 counterexample: creating a 100.00 expense over three roommates
stores three splits of 33.33 = round2(100 / 3); their sum is 99.99,
strictly below the stored receipt_total of 100.00, refuting the claimed
unqualified sum-equals-total invariant. -/
theorem createExpense_sum_rounding_counterexample :
    ((createExpense baseStore data100 7 Fault.none).2.map
        (fun v => ((v.splits.map (·.split_amount)).sum, v.expense.receipt_total))) =
      Except.ok ((9999 : ℚ) / 100, (100 : ℚ)) ∧
    ((9999 : ℚ) / 100) ≠ (100 : ℚ) := by
  have hfresh : FreshIds baseStore :=
    ⟨fun e he => by simp [baseStore] at he, fun s hs => by simp [baseStore] at hs⟩
  have h100 : round2 (100 : ℚ) = 100 := by
    unfold round2
    norm_num [round_eq]
  have hshare : round2 ((100 : ℚ) / 3) = 3333 / 100 := by
    unfold round2
    norm_num [round_eq]
  constructor
  · rw [createExpense_none_eq baseStore data100 7 hfresh]
    simp only [Except.map]
    have h1 : ((newSplitRows baseStore data100 7).map (·.split_amount)).sum =
        9999 / 100 := by
      simp only [newSplitRows, baseStore, data100, sampleData]
      rw [mkSplits_map_amount, List.sum_replicate, nsmul_eq_mul]
      norm_num [h100, hshare]
    have h2 : (newExpense baseStore data100).receipt_total = 100 := by
      simp only [newExpense, data100, sampleData]
      exact h100
    rw [h1, h2]
  · norm_num

/-- C2: in every createExpense call, each generated split assigned to
the creator is created paid with a non-null paid_date, every other
generated split is created unpaid with null paid_date, and every
generated split has assigned_by = creator. -/
theorem createExpense_creator_presettled (st : Store) (data : ExpenseData) (now : ℤ)
    (hfresh : FreshIds st) :
    ∃ st' v, createExpense st data now Fault.none = (st', .ok v) ∧
      ∀ s ∈ v.splits,
        s.assigned_by = some data.created_by ∧
        (s.assigned_to = data.created_by →
          s.status = Status.paid ∧ s.paid_date = some now) ∧
        (s.assigned_to ≠ data.created_by →
          s.status = Status.unpaid ∧ s.paid_date = none) := by
  refine ⟨_, _, createExpense_none_eq st data now hfresh, ?_⟩
  intro s hs
  simp only [newSplitRows] at hs
  obtain ⟨-, -, hby, hstat, hpd⟩ := mkSplits_mem _ _ _ hs
  refine ⟨hby, ?_, ?_⟩
  · intro h
    rw [hstat, hpd]
    simp [h]
  · intro h
    rw [hstat, hpd]
    simp [h]

/-- C3: createExpense is atomic.  Without a fault the expense row and
all of its split rows are persisted together; if either insert fails
the transaction rolls back, the returned store is unchanged, a
subsequent getExpenseById on the identifier the expense would have used
reports the not-found outcome, and no split rows for it exist. -/
theorem createExpense_atomicity (st : Store) (data : ExpenseData) (now : ℤ)
    (fault : Fault) (hfresh : FreshIds st) :
    (fault = Fault.none →
      ∃ st' v, createExpense st data now fault = (st', .ok v) ∧
        v.expense ∈ st'.expenses ∧ ∀ s ∈ v.splits, s ∈ st'.splits) ∧
    (fault ≠ Fault.none →
      ∃ m, createExpense st data now fault = (st, .error m) ∧
        getExpenseById st st.nextExpenseId = .error expenseNotFoundMsg ∧
        splitsOfExpense st st.nextExpenseId = []) := by
  constructor
  · intro h
    subst h
    refine ⟨_, _, createExpense_none_eq st data now hfresh, ?_, ?_⟩
    · show newExpense st data ∈ (stAfterCreate st data now).expenses
      simp [stAfterCreate]
    · intro s hs
      simp only [newSplitRows] at hs
      show s ∈ (stAfterCreate st data now).splits
      simp only [stAfterCreate, newSplitRows, List.mem_append]
      exact Or.inr hs
  · intro h
    have hfind : findExpense st st.nextExpenseId = none := by
      unfold findExpense
      exact List.find?_eq_none.mpr (fun e he => by simp [hfresh.1 e he])
    have hread : getExpenseById st st.nextExpenseId = .error expenseNotFoundMsg := by
      unfold getExpenseById
      rw [hfind]
    have hsplits : splitsOfExpense st st.nextExpenseId = [] := by
      unfold splitsOfExpense
      exact List.filter_eq_nil_iff.mpr (fun s hs => by simp [hfresh.2 s hs])
    cases fault with
    | none => exact absurd rfl h
    | expenseInsertFails => exact ⟨_, rfl, hread, hsplits⟩
    | splitInsertFails => exact ⟨_, rfl, hread, hsplits⟩


/-- The SUM-then-coerce pipeline equals the plain list sum. -/
theorem jsNumOrZero_sumAgg (l : List ℚ) : jsNumOrZero (sumAgg l) = l.sum := by
  cases l with
  | nil => rfl
  | cons a l => simp [sumAgg, jsNumOrZero]

/-- C4 (amended): updateSplitStatus sets the status as requested; when
the new status is paid and a paidDate is provided, paid_date becomes
that date; when the new status is paid and no paidDate is provided,
paid_date keeps its previous value (there is no current-time default);
for any non-paid status paid_date is cleared to null even if a prior
paid transition had set it.  Hence a non-null paid_date after the
update implies status = paid, but not conversely. -/
theorem updateSplitStatus_paid_date_rule (st : Store) (sid : Nat) (status : Status)
    (pd : Option ℤ) (s0 : Split) (h : findSplit st sid = some s0) :
    ∃ st' inst, updateSplitStatus st sid status pd = (st', .ok inst) ∧
      inst.row.status = status ∧
      (status = Status.paid → pd.isSome → inst.row.paid_date = pd) ∧
      (status = Status.paid → pd = none → inst.row.paid_date = s0.paid_date) ∧
      (status ≠ Status.paid → inst.row.paid_date = none) ∧
      (inst.row.paid_date ≠ none → status = Status.paid) := by
  unfold updateSplitStatus
  rw [h]
  refine ⟨_, _, rfl, rfl, ?_, ?_, ?_, ?_⟩
  · intro hp hsome
    simp [hp, hsome]
  · intro hp hnone
    simp [hp, hnone]
  · intro hnp
    simp [hnp]
  · intro hne
    by_contra hnp
    exact hne (by simp [hnp])

/-- C4 counterexample: marking an unpaid split (null paid_date) paid
without providing a date yields status = paid with paid_date still
null, refuting both the claimed current-time default and the claimed
paid-iff-non-null coupling. -/
theorem updateSplitStatus_null_paid_date_counterexample :
    ((updateSplitStatus oneSplitStore 1 Status.paid none).2.map
      (fun i => (i.row.status, i.row.paid_date))) =
      Except.ok (Status.paid, (none : Option ℤ)) := by rfl

/-- C5 (amended): for a caller in a group, a missing or empty
selected-roommates list fails with the 400 validation response
"You must select at least one roommate to split the expense with", and
a list not containing the creator fails with the 400 validation
response "You must include yourself in the selected roommates"; in
both cases the store is unchanged (the service is never invoked), so
no expense or split rows are created. -/
theorem httpCreateExpense_validation (st : Store) (req : CreateExpenseRequest)
    (now : ℤ) (fault : Fault) (ug : Nat)
    (hg : req.user_group_id = some ug)
    (hgid : req.group_id = none ∨ req.group_id = some ug) :
    ((req.selected_roommates = none ∨ req.selected_roommates = some []) →
      httpCreateExpense st req now fault =
        (st, ⟨400, false,
          "You must select at least one roommate to split the expense with"⟩)) ∧
    (∀ rms, req.selected_roommates = some rms → rms ≠ [] →
      req.user_tenant_id ∉ rms →
      httpCreateExpense st req now fault =
        (st, ⟨400, false, "You must include yourself in the selected roommates"⟩)) := by
  have hmatch : (match req.group_id with
      | some g => g != ug
      | none => false : Bool) = false := by
    rcases hgid with h | h <;> simp [h]
  constructor
  · rintro (h | h) <;> simp [httpCreateExpense, hg, hmatch, h]
  · intro rms hr hne hmem
    simp [httpCreateExpense, hg, hmatch, hr, hne, hmem]

/-- C5 counterexample: with the creator absent from the roommate list
the operation does fail with a 400 validation response, but its message
is "You must include yourself in the selected roommates", not the
claimed "creator must be included". -/
theorem createExpense_validation_message_counterexample :
    (httpCreateExpense baseStore creatorMissingReq 0 Fault.none).2 =
      ⟨400, false, "You must include yourself in the selected roommates"⟩ ∧
    (httpCreateExpense baseStore creatorMissingReq 0 Fault.none).2.message ≠
      "creator must be included" := by
  refine ⟨rfl, ?_⟩
  show ("You must include yourself in the selected roommates" : String) ≠
    "creator must be included"
  decide

/-- C6: marking a split paid persists the new status and responds 200,
and the notification failure is swallowed as claimed - but the list of
emitted settlement notifications is empty.  updateSplitStatus loads the
split without its associations, so the controller dereference
split.expense.creator always throws inside the notification try/catch
and no notification is ever dispatched: the emission half of the claim
never happens on any input. -/
theorem splitPaidNotificationNeverSent :
    httpUpdateSplitStatus oneSplitStore 1 Status.paid (some 99) =
      ({ oneSplitStore with
          splits := [⟨1, Status.paid, 30, 2, some 1, some 99, 1, 0⟩] },
        ⟨200, true, "Split status updated successfully"⟩, []) := by rfl

/-- C9: reading a split id that does not resolve produces the generic
500 outcome, not the distinct 404 branch.  The service wraps the inner
message as "Failed to get split: Split not found" while the controller
compares for strict equality with "Split not found", so the 404 branch
is dead code and a missing row is indistinguishable from a generic
failure at the HTTP boundary. -/
theorem notFoundIndistinguishable :
    httpGetSplitById baseStore 1 =
      ⟨500, false, "Failed to get split: Split not found"⟩ ∧
    ("Failed to get split: Split not found" : String) ≠ "Split not found" := by
  exact ⟨rfl, by decide⟩

/-- C7: for every user with a tenant record, getSplitHistory returns
exactly the splits with status = paid in which the tenant appears as
assigned_to or as assigned_by (the union of the payer and payee roles),
ordered by paid_date descending. -/
theorem getSplitHistory_union_sorted (st : Store) (userId : Nat) (t : Tenant)
    (h : findTenantByUser st userId = some t) :
    ∃ l, getSplitHistory st userId = .ok l ∧
      l.Perm (st.splits.filter (historyPred t.id)) ∧
      (∀ s, s ∈ l ↔ s ∈ st.splits ∧ s.status = Status.paid ∧
        (s.assigned_to = t.id ∨ s.assigned_by = some t.id)) ∧
      List.Sorted paidDateDesc l := by
  have hrun : getSplitHistory st userId =
      .ok (List.insertionSort paidDateDesc (st.splits.filter (historyPred t.id))) := by
    unfold getSplitHistory
    rw [h]
  refine ⟨_, hrun, List.perm_insertionSort _ _, ?_, List.sorted_insertionSort _ _⟩
  intro s
  rw [(List.perm_insertionSort paidDateDesc _).mem_iff, List.mem_filter]
  simp [historyPred, and_assoc]

/-- C8: getTotalExpensesByGroup returns 0 for a group with no
expenses, getTotalSplitsByStatus returns 0 for an expense/status pair
with no matching splits, and each of the three pairs of getSplitSummary
is {total := 0, count := 0} when no rows match - always an ok outcome,
never an error. -/
theorem aggregate_zero_defaults (st : Store) (g eid : Nat) (stat : Status)
    (userId : Nat) (t : Tenant) :
    ((∀ e ∈ st.expenses, e.group_id ≠ g) → getTotalExpensesByGroup st g = .ok 0) ∧
    ((∀ s ∈ st.splits, ¬(s.expense_id = eid ∧ s.status = stat)) →
      getTotalSplitsByStatus st eid stat = .ok 0) ∧
    (findTenantByUser st userId = some t →
      ((∀ s ∈ st.splits, toPayPred t.id s = false) →
        ∃ sm, getSplitSummary st userId = .ok sm ∧ sm.toPay = ⟨0, 0⟩) ∧
      ((∀ s ∈ st.splits, toReceivePred t.id s = false) →
        ∃ sm, getSplitSummary st userId = .ok sm ∧ sm.toReceive = ⟨0, 0⟩) ∧
      ((∀ s ∈ st.splits, historyPred t.id s = false) →
        ∃ sm, getSplitSummary st userId = .ok sm ∧ sm.history = ⟨0, 0⟩)) := by
  refine ⟨?_, ?_, ?_⟩
  · intro hnone
    have hfil : st.expenses.filter (fun e => e.group_id == g) = [] :=
      List.filter_eq_nil_iff.mpr (fun e he => by simp [hnone e he])
    simp [getTotalExpensesByGroup, hfil, sumAgg, jsNumOrZero]
  · intro hnone
    have hfil : st.splits.filter (fun s => s.expense_id == eid && s.status == stat) = [] :=
      List.filter_eq_nil_iff.mpr (fun s hs => by
        have := hnone s hs
        simp only [Bool.and_eq_true, beq_iff_eq, not_and]
        intro h1
        exact fun h2 => this ⟨h1, h2⟩)
    simp [getTotalSplitsByStatus, hfil, sumAgg, jsNumOrZero]
  · intro h
    have hrun : getSplitSummary st userId =
        .ok ⟨aggFor (toPayPred t.id) st, aggFor (toReceivePred t.id) st,
          aggFor (historyPred t.id) st⟩ := by
      unfold getSplitSummary
      rw [h]
    refine ⟨?_, ?_, ?_⟩ <;> intro hnone <;> refine ⟨_, hrun, ?_⟩
    · have hfil : st.splits.filter (toPayPred t.id) = [] :=
        List.filter_eq_nil_iff.mpr (fun s hs => by simp [hnone s hs])
      simp [aggFor, hfil, sumAgg, jsNumOrZero]
    · have hfil : st.splits.filter (toReceivePred t.id) = [] :=
        List.filter_eq_nil_iff.mpr (fun s hs => by simp [hnone s hs])
      simp [aggFor, hfil, sumAgg, jsNumOrZero]
    · have hfil : st.splits.filter (historyPred t.id) = [] :=
        List.filter_eq_nil_iff.mpr (fun s hs => by simp [hnone s hs])
      simp [aggFor, hfil, sumAgg, jsNumOrZero]

/-- An aggregate pair agrees with the sum and length of the sorted
list produced from the same where-clause. -/
theorem aggFor_matches_sorted (p : Split → Bool) (st : Store)
    (r : Split → Split → Prop) [DecidableRel r] :
    (aggFor p st).total =
        ((List.insertionSort r (st.splits.filter p)).map (·.split_amount)).sum ∧
      (aggFor p st).count = (List.insertionSort r (st.splits.filter p)).length := by
  constructor
  · show jsNumOrZero (sumAgg ((st.splits.filter p).map (·.split_amount))) = _
    rw [jsNumOrZero_sumAgg]
    exact (((List.perm_insertionSort r _).map (·.split_amount)).sum_eq).symm
  · show (st.splits.filter p).length = _
    exact ((List.perm_insertionSort r _).length_eq).symm

/-- C10: for every store and every user with a tenant record, the
summary returned by getSplitSummary agrees with the list operations:
toPay.total and toPay.count equal the sum and number of the splits
returned by getToPaySplits, and likewise toReceive against
getToReceiveSplits and history against getSplitHistory. -/
theorem getSplitSummary_consistent (st : Store) (userId : Nat) (t : Tenant)
    (h : findTenantByUser st userId = some t) :
    ∃ sm tp tr hi,
      getSplitSummary st userId = .ok sm ∧
      getToPaySplits st userId = .ok tp ∧
      getToReceiveSplits st userId = .ok tr ∧
      getSplitHistory st userId = .ok hi ∧
      sm.toPay.total = (tp.map (·.split_amount)).sum ∧
      sm.toPay.count = tp.length ∧
      sm.toReceive.total = (tr.map (·.split_amount)).sum ∧
      sm.toReceive.count = tr.length ∧
      sm.history.total = (hi.map (·.split_amount)).sum ∧
      sm.history.count = hi.length := by
  refine ⟨_, _, _, _,
    (by unfold getSplitSummary; rw [h]),
    (by unfold getToPaySplits; rw [h]),
    (by unfold getToReceiveSplits; rw [h]),
    (by unfold getSplitHistory; rw [h]), ?_, ?_, ?_, ?_, ?_, ?_⟩
  · exact (aggFor_matches_sorted (toPayPred t.id) st createdDesc).1
  · exact (aggFor_matches_sorted (toPayPred t.id) st createdDesc).2
  · exact (aggFor_matches_sorted (toReceivePred t.id) st createdDesc).1
  · exact (aggFor_matches_sorted (toReceivePred t.id) st createdDesc).2
  · exact (aggFor_matches_sorted (historyPred t.id) st paidDateDesc).1
  · exact (aggFor_matches_sorted (historyPred t.id) st paidDateDesc).2


/-- Witness for C1: the 90-unit expense over three roommates. -/
theorem createExpense_equal_split_and_sum_witness :
    FreshIds baseStore ∧ sampleData.selected_roommates ≠ [] ∧
    (∃ st' v, createExpense baseStore sampleData 100 Fault.none = (st', .ok v) ∧
      (∀ s ∈ v.splits,
        s.split_amount =
          round2 (v.expense.receipt_total /
            (sampleData.selected_roommates.length : ℚ))) ∧
      (v.splits.map (·.split_amount)).sum =
        (sampleData.selected_roommates.length : ℚ) *
          round2 (v.expense.receipt_total /
            (sampleData.selected_roommates.length : ℚ)) ∧
      |(v.splits.map (·.split_amount)).sum - v.expense.receipt_total| ≤
        (sampleData.selected_roommates.length : ℚ) / 200) :=
  ⟨⟨fun e he => by simp [baseStore] at he, fun s hs => by simp [baseStore] at hs⟩,
   by decide,
   createExpense_equal_split_and_sum baseStore sampleData 100
     ⟨fun e he => by simp [baseStore] at he, fun s hs => by simp [baseStore] at hs⟩
     (by decide)⟩

/-- Witness for C2: the 90-unit expense over three roommates. -/
theorem createExpense_creator_presettled_witness :
    FreshIds baseStore ∧
    (∃ st' v, createExpense baseStore sampleData 100 Fault.none = (st', .ok v) ∧
      ∀ s ∈ v.splits,
        s.assigned_by = some sampleData.created_by ∧
        (s.assigned_to = sampleData.created_by →
          s.status = Status.paid ∧ s.paid_date = some 100) ∧
        (s.assigned_to ≠ sampleData.created_by →
          s.status = Status.unpaid ∧ s.paid_date = none)) :=
  ⟨⟨fun e he => by simp [baseStore] at he, fun s hs => by simp [baseStore] at hs⟩,
   createExpense_creator_presettled baseStore sampleData 100
     ⟨fun e he => by simp [baseStore] at he, fun s hs => by simp [baseStore] at hs⟩⟩

/-- Witness for C3: a simulated split-insert fault on a fresh store. -/
theorem createExpense_atomicity_witness :
    FreshIds baseStore ∧
    ((Fault.splitInsertFails = Fault.none →
      ∃ st' v, createExpense baseStore sampleData 100 Fault.splitInsertFails =
          (st', .ok v) ∧
        v.expense ∈ st'.expenses ∧ ∀ s ∈ v.splits, s ∈ st'.splits) ∧
    (Fault.splitInsertFails ≠ Fault.none →
      ∃ m, createExpense baseStore sampleData 100 Fault.splitInsertFails =
          (baseStore, .error m) ∧
        getExpenseById baseStore baseStore.nextExpenseId = .error expenseNotFoundMsg ∧
        splitsOfExpense baseStore baseStore.nextExpenseId = [])) :=
  ⟨⟨fun e he => by simp [baseStore] at he, fun s hs => by simp [baseStore] at hs⟩,
   createExpense_atomicity baseStore sampleData 100 Fault.splitInsertFails
     ⟨fun e he => by simp [baseStore] at he, fun s hs => by simp [baseStore] at hs⟩⟩

/-- Witness for C4: marking a stored split paid with a provided date. -/
theorem updateSplitStatus_paid_date_rule_witness :
    findSplit oneSplitStore 1 = some ⟨1, Status.unpaid, 30, 2, some 1, none, 1, 0⟩ ∧
    (∃ st' inst, updateSplitStatus oneSplitStore 1 Status.paid (some 77) =
        (st', .ok inst) ∧
      inst.row.status = Status.paid ∧
      (Status.paid = Status.paid → (some (77 : ℤ)).isSome →
        inst.row.paid_date = some 77) ∧
      (Status.paid = Status.paid → some (77 : ℤ) = none →
        inst.row.paid_date =
          (⟨1, Status.unpaid, 30, 2, some 1, none, 1, 0⟩ : Split).paid_date) ∧
      (Status.paid ≠ Status.paid → inst.row.paid_date = none) ∧
      (inst.row.paid_date ≠ none → Status.paid = Status.paid)) :=
  ⟨rfl, updateSplitStatus_paid_date_rule oneSplitStore 1 Status.paid (some 77)
    ⟨1, Status.unpaid, 30, 2, some 1, none, 1, 0⟩ rfl⟩

/-- Witness for C5: the request whose creator is absent from the
selected roommates. -/
theorem httpCreateExpense_validation_witness :
    creatorMissingReq.user_group_id = some 5 ∧
    (creatorMissingReq.group_id = none ∨ creatorMissingReq.group_id = some 5) ∧
    (((creatorMissingReq.selected_roommates = none ∨
        creatorMissingReq.selected_roommates = some []) →
      httpCreateExpense baseStore creatorMissingReq 0 Fault.none =
        (baseStore, ⟨400, false,
          "You must select at least one roommate to split the expense with"⟩)) ∧
    (∀ rms, creatorMissingReq.selected_roommates = some rms → rms ≠ [] →
      creatorMissingReq.user_tenant_id ∉ rms →
      httpCreateExpense baseStore creatorMissingReq 0 Fault.none =
        (baseStore,
          ⟨400, false, "You must include yourself in the selected roommates"⟩))) :=
  ⟨rfl, Or.inl rfl,
   httpCreateExpense_validation baseStore creatorMissingReq 0 Fault.none 5 rfl
     (Or.inl rfl)⟩

/-- Witness for C7: tenant 1 is payer on one paid split and payee on
another. -/
theorem getSplitHistory_union_sorted_witness :
    findTenantByUser historyStore 10 = some ⟨1, 10⟩ ∧
    (∃ l, getSplitHistory historyStore 10 = .ok l ∧
      l.Perm (historyStore.splits.filter (historyPred 1)) ∧
      (∀ s, s ∈ l ↔ s ∈ historyStore.splits ∧ s.status = Status.paid ∧
        (s.assigned_to = 1 ∨ s.assigned_by = some 1)) ∧
      List.Sorted paidDateDesc l) :=
  ⟨rfl, getSplitHistory_union_sorted historyStore 10 ⟨1, 10⟩ rfl⟩

/-- Witness for C8: aggregates over the empty ledger. -/
theorem aggregate_zero_defaults_witness :
    getTotalExpensesByGroup baseStore 5 = .ok 0 ∧
    getTotalSplitsByStatus baseStore 1 Status.paid = .ok 0 ∧
    (∃ sm, getSplitSummary baseStore 10 = .ok sm ∧ sm.toPay = ⟨0, 0⟩) :=
  ⟨(aggregate_zero_defaults baseStore 5 1 Status.paid 10 ⟨1, 10⟩).1
      (fun e he => by simp [baseStore] at he),
   (aggregate_zero_defaults baseStore 5 1 Status.paid 10 ⟨1, 10⟩).2.1
      (fun s hs => by simp [baseStore] at hs),
   ((aggregate_zero_defaults baseStore 5 1 Status.paid 10 ⟨1, 10⟩).2.2 rfl).1
      (fun s hs => by simp [baseStore] at hs)⟩

/-- Witness for C10: the mixed history store for tenant 1. -/
theorem getSplitSummary_consistent_witness :
    findTenantByUser historyStore 10 = some ⟨1, 10⟩ ∧
    (∃ sm tp tr hi,
      getSplitSummary historyStore 10 = .ok sm ∧
      getToPaySplits historyStore 10 = .ok tp ∧
      getToReceiveSplits historyStore 10 = .ok tr ∧
      getSplitHistory historyStore 10 = .ok hi ∧
      sm.toPay.total = (tp.map (·.split_amount)).sum ∧
      sm.toPay.count = tp.length ∧
      sm.toReceive.total = (tr.map (·.split_amount)).sum ∧
      sm.toReceive.count = tr.length ∧
      sm.history.total = (hi.map (·.split_amount)).sum ∧
      sm.history.count = hi.length) :=
  ⟨rfl, getSplitSummary_consistent historyStore 10 ⟨1, 10⟩ rfl⟩

end RoomSync
